import Mathlib

/-!
Shallow embedding of `src/annotate.py` (class `AnnotationTool`), the
annotation state engine of the uml_annotate repository: the span-indexed
entity/relationship model, the tagging state machine, the snapshot-based
undo/redo history, the JSON sync-back handler and the pre-annotation
structuring loop.

Python state is modelled as the record `ToolState`; the Python dict
`highlighted_spans` is an insertion-ordered association list (Python dicts
preserve insertion order, and the code never creates duplicate keys).
Python's `sorted(..., key=len, reverse=True)` (a stable sort) is modelled
by a stable insertion sort, which computes the same list as any stable
sort with the same key.  Offsets are natural numbers (all spans come from
text cursor positions).  Qt-only effects (painting highlights, message
boxes, button checking, the results editor text) are not part of the
state; the status bar text is kept, since the spec's claims mention the
reported messages.  Names ending in the word `annotation` are rendered as
`_op` / abbreviated forms (`undo_op` models `undo_annotation`).
-/

namespace Annotate

/-- A text span, the half-open interval `[start, stop)` used as entity key. -/
abbrev Span := Nat × Nat

/-- One value of the `highlighted_spans` dict: `{"text", "tag"}` plus the
optional `"class_name"` key, modelled as an `Option`. -/
structure SpanData where
  text : String
  tag : String
  class_name : Option String
deriving DecidableEq

/-- An entry of a class's `attributes` list. -/
structure AttributeEntry where
  name : String
  span : Span
  type : String
deriving DecidableEq

/-- An entry of a class's `methods` list (the `parameters` list is always
empty in the source and is omitted). -/
structure MethodEntry where
  name : String
  span : Span
deriving DecidableEq

/-- An entry of `annotations["classes"]`. -/
structure ClassEntry where
  name : String
  span : Span
  attributes : List AttributeEntry
  methods : List MethodEntry
deriving DecidableEq

/-- An entry of `annotations["relationships"]`. -/
structure RelationshipEntry where
  from_class : String
  to_class : String
  type : String
  from_span : Span
  to_span : Span
deriving DecidableEq

/-- The `self.annotations` dict: `{"classes": [...], "relationships": [...]}`. -/
structure AnnModel where
  classes : List ClassEntry
  relationships : List RelationshipEntry
deriving DecidableEq

/-- One undo/redo snapshot, as built by `push_state_to_undo_stack`. -/
structure Snapshot where
  annotations : AnnModel
  highlighted_spans : List (Span × SpanData)
  selected_context_class_span : Option Span
deriving DecidableEq

/-- The mutable fields of `AnnotationTool` that the engine reads or writes.
The head of `undo_stack` / `redo_stack` is the Python list's last element
(the top of the stack). -/
structure ToolState where
  annotations : AnnModel
  highlighted_spans : List (Span × SpanData)
  relationship_mode : Bool
  current_relationship : String
  relationship_from_class_span : Option Span
  relationship_to_class_span : Option Span
  current_tag : Option String
  selected_context_class_span : Option Span
  undo_stack : List Snapshot
  redo_stack : List Snapshot
  is_processing_json_change : Bool
  status : String
deriving DecidableEq

/-- Python dict lookup on the insertion-ordered association list. -/
def dictGet : List (Span × SpanData) → Span → Option SpanData
  | [], _ => none
  | p :: rest, k => if p.1 = k then some p.2 else dictGet rest k

/-- Python dict assignment `d[k] = v`: replace the value at an existing key
in place, else append the new pair at the end. -/
def dictInsert : List (Span × SpanData) → Span → SpanData → List (Span × SpanData)
  | [], k, v => [(k, v)]
  | p :: rest, k, v => if p.1 = k then (k, v) :: rest else p :: dictInsert rest k v

/-- The sort key of `_get_highlighted_entity_at_pos`: `span[1] - span[0]`. -/
def spanLen (sp : Span) : Nat := sp.2 - sp.1

/-- Stable descending-by-length insertion: the new element goes after every
element whose key is greater than or equal to its own. -/
def insertByLenDesc (x : Span × SpanData) : List (Span × SpanData) → List (Span × SpanData)
  | [] => [x]
  | y :: ys => if spanLen x.1 ≤ spanLen y.1 then y :: insertByLenDesc x ys else x :: y :: ys

/-- `sorted(items, key=length, reverse=True)`: a stable sort by span length,
longest first. -/
def sortByLenDesc (l : List (Span × SpanData)) : List (Span × SpanData) :=
  l.foldl (fun acc x => insertByLenDesc x acc) []

/-- `_get_highlighted_entity_at_pos`: walk the spans sorted longest-first and
return the first one containing `pos` (`span[0] <= pos < span[1]`). -/
def get_highlighted_entity_at_pos (spans : List (Span × SpanData)) (pos : Nat) :
    Option (Span × SpanData) :=
  (sortByLenDesc spans).find? (fun p => decide (p.1.1 ≤ pos) && decide (pos < p.1.2))

/-- `_get_class_by_span`: `None` in, `None` out; else the first class whose
span equals the key. -/
def getClassBySpan (a : AnnModel) (sp : Option Span) : Option ClassEntry :=
  match sp with
  | none => none
  | some t => a.classes.find? (fun c => c.span == t)

/-- The triple deep-copied by `push_state_to_undo_stack`. -/
def snapshotOf (s : ToolState) : Snapshot :=
  { annotations := s.annotations,
    highlighted_spans := s.highlighted_spans,
    selected_context_class_span := s.selected_context_class_span }

/-- `push_state_to_undo_stack`: skip when a non-initial push matches the
top-of-stack snapshot; a non-initial push clears the redo stack. -/
def push_state_to_undo_stack (initial_state : Bool) (s : ToolState) : ToolState :=
  if initial_state = false ∧ s.undo_stack.head? = some (snapshotOf s) then s
  else
    let s1 := { s with undo_stack := snapshotOf s :: s.undo_stack }
    if initial_state then s1 else { s1 with redo_stack := [] }

/-- `pop_state_from_undo_stack`, with the source's exact guard:
`len(stack) > 1 or (len(stack) == 1 and not redo_stack)`. -/
def pop_state_from_undo_stack (s : ToolState) : ToolState :=
  if s.undo_stack ≠ [] then
    if s.undo_stack.length > 1 ∨ (s.undo_stack.length = 1 ∧ s.redo_stack = []) then
      { s with undo_stack := s.undo_stack.tail }
    else s
  else s

/-- `highlight_word`'s rule for the `class_name` key: recorded only when the
owner name is truthy and the tag is ATTRIBUTE or METHOD. -/
def ownerRef (clsName tag : String) : Option String :=
  if clsName ≠ "" ∧ (tag = "ATTRIBUTE" ∨ tag = "METHOD") then some clsName else none

/-- `highlight_word`: record span data in the `highlighted_spans` dict. -/
def highlight_word (word : String) (start stop : Nat) (tag_type : String)
    (class_context_name : Option String) (s : ToolState) : ToolState :=
  let span_data : SpanData :=
    { text := word, tag := tag_type,
      class_name := match class_context_name with
                    | some n => ownerRef n tag_type
                    | none => none }
  { s with highlighted_spans := dictInsert s.highlighted_spans (start, stop) span_data }

/-- The sequence of `highlight_word` dict writes performed by the nested
loops of `rebuild_highlights_from_annotations`, flattened in loop order:
for each class its own span, then its attributes, then its methods. -/
def highlightInsertions (a : AnnModel) : List (Span × SpanData) :=
  a.classes.flatMap (fun c =>
    (c.span, { text := c.name, tag := "CLASS", class_name := none }) ::
    (c.attributes.map (fun att =>
        (att.span, { text := att.name, tag := "ATTRIBUTE",
                     class_name := ownerRef c.name "ATTRIBUTE" })) ++
     c.methods.map (fun m =>
        (m.span, { text := m.name, tag := "METHOD",
                   class_name := ownerRef c.name "METHOD" }))))

/-- The list of entity spans of a model, in traversal order. -/
def entitySpans (a : AnnModel) : List Span := (highlightInsertions a).map Prod.fst

/-- `rebuild_highlights_from_annotations`: clear the span dict, re-insert
every entity span from the model, then drop the context-class selection if
it no longer resolves to a CLASS-tagged span. -/
def rebuild_highlights_from_annotations (s : ToolState) : ToolState :=
  let rebuilt := (highlightInsertions s.annotations).foldl
    (fun (m : List (Span × SpanData)) (p : Span × SpanData) => dictInsert m p.1 p.2) []
  let s1 := { s with highlighted_spans := rebuilt }
  match s1.selected_context_class_span with
  | none => s1
  | some ctx =>
      if getClassBySpan s1.annotations (some ctx) ≠ none ∧
         (dictGet s1.highlighted_spans ctx).map (fun d : SpanData => d.tag) = some "CLASS" then s1
      else { s1 with selected_context_class_span := none }

/-- `_restore_state`: copy the snapshot into the live fields, rebuild the
span index from the model, then clear the ephemeral tagging context. -/
def restoreState (snap : Snapshot) (s : ToolState) : ToolState :=
  let s1 := { s with annotations := snap.annotations,
                     highlighted_spans := snap.highlighted_spans,
                     selected_context_class_span := snap.selected_context_class_span }
  let s2 := rebuild_highlights_from_annotations s1
  { s2 with current_tag := none, relationship_mode := false,
            relationship_from_class_span := none }

/-- `undo_annotation`: only acts when more than the baseline remains; moves
the top snapshot to the redo stack and restores the new top. -/
def undo_op (s : ToolState) : ToolState :=
  match s.undo_stack with
  | cur :: target :: rest =>
      let s1 := { s with undo_stack := target :: rest, redo_stack := cur :: s.redo_stack }
      { restoreState target s1 with status := "Undo successful." }
  | _ => { s with status := "Nothing more to undo." }

/-- `redo_annotation`: pop the redo stack, push that snapshot back onto the
undo stack and restore it. -/
def redo_op (s : ToolState) : ToolState :=
  match s.redo_stack with
  | snap :: rest =>
      let s1 := { s with redo_stack := rest, undo_stack := snap :: s.undo_stack }
      { restoreState snap s1 with status := "Redo successful." }
  | [] => { s with status := "Nothing to redo." }

/-- `clear_context_class_selection` (highlight repainting is visual only). -/
def clear_context_class_selection (from_click : Bool) (s : ToolState) : ToolState :=
  match s.selected_context_class_span with
  | none => s
  | some _ =>
      let s1 := { s with selected_context_class_span := none }
      if from_click = false then
        { s1 with status := "Context class cleared. Select tag or action." }
      else if s.current_tag = none ∧ s.relationship_mode = false then
        { s1 with status := "Context cleared. Select a tag, or a class to set context." }
      else s1

/-- `set_tag_mode`: snapshot, enter entity-tagging mode, keep the context
class only when tagging ATTRIBUTE/METHOD with one selected. -/
def set_tag_mode (tag : String) (s0 : ToolState) : ToolState :=
  let s := push_state_to_undo_stack false s0
  let s := { s with current_tag := some tag, relationship_mode := false,
                    relationship_from_class_span := none }
  if s.selected_context_class_span ≠ none ∧ (tag = "ATTRIBUTE" ∨ tag = "METHOD") then
    match getClassBySpan s.annotations s.selected_context_class_span with
    | some info =>
        { s with status := "Context: " ++ info.name ++ ". Tag: " ++ tag ++ ". Click word for attribute/method." }
    | none => { s with status := "Selected tag: " ++ tag ++ ". Click on a word." }
  else
    let s1 := clear_context_class_selection false s
    { s1 with status := "Selected tag: " ++ tag ++ ". Click on a word." }

/-- `set_relationship_mode`: snapshot, enter relationship mode, clear the
entity tag, the pending from-span and the context class. -/
def set_relationship_mode (relationship_type : String) (s0 : ToolState) : ToolState :=
  let s := push_state_to_undo_stack false s0
  let s := { s with relationship_mode := true, current_relationship := relationship_type,
                    current_tag := none, relationship_from_class_span := none }
  let s1 := clear_context_class_selection false s
  { s1 with status := "Rel: " ++ relationship_type ++ ". Click 1st class (FROM), then 2nd (TO)." }

/-- `add_relationship`: no-op when the `(from_span, to_span, type)` triple
already exists, else append the record. -/
def add_relationship (from_class_name to_class_name rel_type : String)
    (from_span to_span : Span) (s : ToolState) : ToolState :=
  if s.annotations.relationships.any (fun r =>
       r.from_span == from_span && r.to_span == to_span && r.type == rel_type) then s
  else
    { s with annotations := { s.annotations with
        relationships := s.annotations.relationships ++
          [{ from_class := from_class_name, to_class := to_class_name, type := rel_type,
             from_span := from_span, to_span := to_span }] } }

/-- Replace the first class whose span matches (the object returned by
`_get_class_by_span`, which the Python code then mutates in place). -/
def updateFirstBySpan (cs : List ClassEntry) (sp : Span) (f : ClassEntry → ClassEntry) :
    List ClassEntry :=
  match cs with
  | [] => []
  | c :: rest => if c.span = sp then f c :: rest else c :: updateFirstBySpan rest sp f

/-- The trailing status block at the end of `add_entity` (runs on the
fall-through paths only). -/
def entityStatus (tag_type word : String) (s : ToolState) : ToolState :=
  match s.selected_context_class_span with
  | none => s
  | some ctx =>
      if s.current_tag = some "ATTRIBUTE" ∨ s.current_tag = some "METHOD" then
        match getClassBySpan s.annotations (some ctx) with
        | some info =>
            { s with status := "Added " ++ tag_type ++ " '" ++ word ++ "' to " ++ info.name ++ ". Add more or select new." }
        | none => s
      else s

/-- `add_entity`: duplicate-span handling, CLASS append, and context-scoped
ATTRIBUTE/METHOD append (warning dialogs are visual; the abort paths pop the
speculative history entry exactly as the source does). -/
def add_entity (word : String) (start stop : Nat) (tag_type : String) (s : ToolState) :
    ToolState :=
  let entity_span : Span := (start, stop)
  match dictGet s.highlighted_spans entity_span with
  | some existing =>
      if existing.tag = tag_type ∧ existing.text = word then s
      else pop_state_from_undo_stack s
  | none =>
      if tag_type = "CLASS" then
        if s.annotations.classes.any (fun c => c.span == entity_span) then s
        else
          let s1 := { s with annotations := { s.annotations with
              classes := s.annotations.classes ++
                [{ name := word, span := entity_span, attributes := [], methods := [] }] } }
          entityStatus tag_type word (highlight_word word start stop "CLASS" none s1)
      else
        match s.selected_context_class_span with
        | none => pop_state_from_undo_stack s
        | some ctx =>
            match getClassBySpan s.annotations (some ctx) with
            | none => pop_state_from_undo_stack s
            | some parent =>
                if tag_type = "ATTRIBUTE" then
                  if parent.attributes.any (fun a => a.span == entity_span) then s
                  else
                    let s1 := { s with annotations := { s.annotations with
                        classes := updateFirstBySpan s.annotations.classes ctx
                          (fun c => { c with attributes := c.attributes ++
                            [{ name := word, span := entity_span, type := "String" }] }) } }
                    entityStatus tag_type word
                      (highlight_word word start stop "ATTRIBUTE" (some parent.name) s1)
                else if tag_type = "METHOD" then
                  if parent.methods.any (fun m => m.span == entity_span) then s
                  else
                    let s1 := { s with annotations := { s.annotations with
                        classes := updateFirstBySpan s.annotations.classes ctx
                          (fun c => { c with methods := c.methods ++
                            [{ name := word, span := entity_span }] }) } }
                    entityStatus tag_type word
                      (highlight_word word start stop "METHOD" (some parent.name) s1)
                else entityStatus tag_type word s

/-- The display name used in relationship status messages; the Python code
subscripts the `_get_class_by_span` result directly (raising on a missing
class, which is unreachable through normal use); we render `""` there. -/
def classNameAt (a : AnnModel) (sp : Span) : String :=
  match getClassBySpan a (some sp) with
  | some c => c.name
  | none => ""

/-- The relationship branch of `handle_word_selection`: the first qualifying
CLASS click records the from-span; the second rejects a same-span click
(popping the speculative snapshot) and otherwise commits `add_relationship`
and clears both slots. -/
def relationship_click (word : String) (hit : Option (Span × SpanData)) (s : ToolState) :
    ToolState :=
  let notClass := { s with status := "'" ++ word ++ "' is not a tagged CLASS. Select valid CLASS for relationship." }
  match hit with
  | none => pop_state_from_undo_stack notClass
  | some (class_span, d) =>
      if d.tag ≠ "CLASS" then pop_state_from_undo_stack notClass
      else
        match s.relationship_from_class_span with
        | none =>
            let msg := "Rel: " ++ s.current_relationship ++ ". From: " ++ classNameAt s.annotations class_span ++ ". Select 2nd class (TO)."
            { s with relationship_from_class_span := some class_span, status := msg }
        | some fromSp =>
            if class_span = fromSp then
              let msg := "Cannot relate class to itself. From: " ++ classNameAt s.annotations fromSp ++ ". Select different 2nd class (TO)."
              pop_state_from_undo_stack { s with status := msg }
            else
              let s1 := { s with relationship_to_class_span := some class_span }
              match getClassBySpan s1.annotations (some fromSp),
                    getClassBySpan s1.annotations (some class_span) with
              | some fromCls, some toCls =>
                  let s2 := add_relationship fromCls.name toCls.name s1.current_relationship
                    fromSp class_span s1
                  let msg := "Added: " ++ fromCls.name ++ " --[" ++ s1.current_relationship ++ "]--> " ++ toCls.name ++ ". Select next 'FROM' or new relationship."
                  { s2 with status := msg, relationship_from_class_span := none,
                            relationship_to_class_span := none }
              | _, _ => pop_state_from_undo_stack s1

/-- The context-selection branch of `handle_word_selection`: select the
clicked tagged CLASS as context (the context highlight is visual only). -/
def contextClick (s : ToolState) (sp : Span) (d : SpanData) : ToolState :=
  let s1 := clear_context_class_selection false s
  { s1 with selected_context_class_span := some sp,
            status := "Context: " ++ d.text ++ ". Select ATTRIBUTE, METHOD, or a relationship." }

/-- The body of `handle_word_selection` after its initial snapshot push:
dispatch on the clicked position and the current mode; idle clicks and
aborted actions pop the speculative snapshot. -/
def handle_word_selection_core (word : String) (start stop : Nat) (s : ToolState) : ToolState :=
  let hit := get_highlighted_entity_at_pos s.highlighted_spans start
  if hit.map (fun p => p.2.tag) = some "CLASS" ∧ s.current_tag = none ∧
     s.relationship_mode = false then
    match hit with
    | some (sp, d) => contextClick s sp d
    | none => s
  else
    match s.current_tag, s.relationship_mode with
    | some tg, false =>
        if (tg = "ATTRIBUTE" ∨ tg = "METHOD") ∧ s.selected_context_class_span = none then
          pop_state_from_undo_stack
            { s with current_tag := none,
                     status := "Action cancelled. Select CLASS for context or another tag." }
        else add_entity word start stop tg s
    | _, true => relationship_click word hit s
    | none, false => pop_state_from_undo_stack s

/-- `handle_word_selection`: snapshot first, then dispatch. -/
def handle_word_selection (word : String) (start stop : Nat) (s0 : ToolState) : ToolState :=
  handle_word_selection_core word start stop (push_state_to_undo_stack false s0)

/-- The outcome of `json.loads` plus the structural checks performed by
`handle_json_text_change` on the edited results text: blank text is
ignored before parsing; a parse failure raises `JSONDecodeError`; a parsed
top-level value that is not a dict, or a dict missing the `classes` or
`relationships` key, fails the structure check; a well-formed object whose
entries decode into the model (span arrays becoming pairs) is `valid`. -/
inductive ParsedJson where
  | blank
  | malformed
  | nonObject
  | missingKeys
  | valid (a : AnnModel)
deriving DecidableEq

/-- `handle_json_text_change`: re-entrancy guard, early returns for blank or
invalid input (live model untouched, no snapshot, status message only);
on valid input snapshot, adopt the parsed model (the list-to-tuple span
conversion is the identity in the typed model) and rebuild the span index.
The `_is_processing_json_change` flag is set on entry and reset on exit,
a net no-op recorded here only as the guard. -/
def handle_json_text_change (j : ParsedJson) (s : ToolState) : ToolState :=
  if s.is_processing_json_change then s
  else
    match j with
    | ParsedJson.blank => s
    | ParsedJson.malformed => { s with status := "Warning: Invalid JSON in results. Not synced." }
    | ParsedJson.nonObject => { s with status := "Error: Invalid JSON structure in results panel." }
    | ParsedJson.missingKeys => { s with status := "Error: Invalid JSON structure in results panel." }
    | ParsedJson.valid a =>
        let s1 := push_state_to_undo_stack false s
        let s2 := { s1 with annotations := a }
        let s3 := rebuild_highlights_from_annotations s2
        { s3 with status := "Annotations updated from JSON panel." }

/-- One candidate tuple produced by `_syntactic_rules_for_entities`:
`{"text", "label", "start", "end"}` (`stop` renders the `end` key). -/
structure Candidate where
  text : String
  label : String
  start : Nat
  stop : Nat
deriving DecidableEq

/-- The loop-local state of the structuring loop in
`run_preannotation_pipeline`: the model being built, whether
`current_class_obj` is set (it always aliases the most recently appended
class, since classes are only ever appended), and `newly_added_spans`
(a set that only ever receives fresh spans, kept as a list). -/
structure PreState where
  annotations : AnnModel
  hasCurrent : Bool
  newSpans : List Span
deriving DecidableEq

/-- Apply `f` to the last element of the list (the class that
`current_class_obj` points to). -/
def updateLast (f : ClassEntry → ClassEntry) : List ClassEntry → List ClassEntry
  | [] => []
  | [c] => [f c]
  | c :: rest => c :: updateLast f rest

/-- One iteration of the structuring loop of `run_preannotation_pipeline`:
skip an exact duplicate of an accepted span, skip a geometric overlap with
any accepted span (`max(starts) < min(ends)`), then dispatch on the label;
ATTRIBUTE/METHOD candidates are dropped while no class has been accepted. -/
def preannotationStep (st : PreState) (c : Candidate) : PreState :=
  let entity_span : Span := (c.start, c.stop)
  if entity_span ∈ st.newSpans then st
  else if st.newSpans.any (fun es => Nat.max c.start es.1 < Nat.min c.stop es.2) then st
  else if c.label = "CLASS" then
    if st.annotations.classes.any (fun cl => cl.name == c.text && cl.span == entity_span) then st
    else
      let cls : ClassEntry := { name := c.text, span := entity_span, attributes := [], methods := [] }
      { annotations := { st.annotations with classes := st.annotations.classes ++ [cls] },
        hasCurrent := true, newSpans := st.newSpans ++ [entity_span] }
  else if c.label = "ATTRIBUTE" ∧ st.hasCurrent then
    match st.annotations.classes.getLast? with
    | some cur =>
        if cur.attributes.any (fun a => a.name == c.text && a.span == entity_span) then st
        else
          let att : AttributeEntry := { name := c.text, span := entity_span, type := "String" }
          let newClasses := updateLast (fun cl => { cl with attributes := cl.attributes ++ [att] }) st.annotations.classes
          { annotations := { st.annotations with classes := newClasses },
            hasCurrent := st.hasCurrent, newSpans := st.newSpans ++ [entity_span] }
    | none => st
  else if c.label = "METHOD" ∧ st.hasCurrent then
    match st.annotations.classes.getLast? with
    | some cur =>
        if cur.methods.any (fun m => m.name == c.text && m.span == entity_span) then st
        else
          let meth : MethodEntry := { name := c.text, span := entity_span }
          let newClasses := updateLast (fun cl => { cl with methods := cl.methods ++ [meth] }) st.annotations.classes
          { annotations := { st.annotations with classes := newClasses },
            hasCurrent := st.hasCurrent, newSpans := st.newSpans ++ [entity_span] }
    | none => st
  else st

/-- The whole structuring loop run on a candidate list from the fresh
(emptied) model, as `run_preannotation_pipeline` does after its reset. -/
def structureCandidates (cands : List Candidate) : PreState :=
  cands.foldl preannotationStep
    { annotations := { classes := [], relationships := [] }, hasCurrent := false,
      newSpans := [] }

/-- The structuring loop with its cooperative cancellation checkpoint:
`cancelAt` is the iteration index at which `progress.wasCanceled()` first
reports true (an index past the list means the run is never cancelled).
On cancellation the source pops the pushed snapshot, rebuilds highlights
from the (partially populated) live model and returns. -/
def preannotationLoop (cancelAt : Nat) : Nat → Bool → List Span → List Candidate →
    ToolState → ToolState
  | _, _, _, [], s =>
      let s1 := rebuild_highlights_from_annotations s
      { s1 with status := "Pre-annotation applied. Review the results." }
  | i, hasCur, newSpans, c :: rest, s =>
      if i = cancelAt then
        let s1 := pop_state_from_undo_stack s
        let s2 := rebuild_highlights_from_annotations s1
        { s2 with status := "Pre-annotation cancelled during entity structuring." }
      else
        let st := preannotationStep
          { annotations := s.annotations, hasCurrent := hasCur, newSpans := newSpans } c
        preannotationLoop cancelAt (i + 1) st.hasCurrent st.newSpans rest
          { s with annotations := st.annotations }

/-- `run_preannotation_pipeline` from the point where the candidate list is
available (NLP loading, text extraction and the progress dialog are
external): an empty candidate list only reports a status; otherwise a
snapshot is pushed, the model is reset to empty, the span dict is cleared
and the structuring loop runs with the given cancellation point. -/
def run_preannotation_pipeline (cands : List Candidate) (cancelAt : Nat) (s : ToolState) :
    ToolState :=
  if cands = [] then
    { s with status := "No potential entities found by pre-annotation rules." }
  else
    let s1 := push_state_to_undo_stack false s
    let s2 := { s1 with annotations := { classes := [], relationships := [] },
                        highlighted_spans := [] }
    preannotationLoop cancelAt 0 false [] cands s2

/-- The live annotation model view compared by the spec's properties: the
entity/relationship model together with the span index. -/
def modelOf (s : ToolState) : AnnModel × List (Span × SpanData) :=
  (s.annotations, s.highlighted_spans)

/-- No recorded relationship is a self-relationship. -/
def noSelfRel (s : ToolState) : Prop :=
  ∀ r ∈ s.annotations.relationships, r.from_span ≠ r.to_span

/-- Span Index / Model agreement: every span key of the index names exactly
one entity of the model, and every entity span of the model occurs exactly
once among the index keys. -/
def spanModelAgreement (s : ToolState) : Prop :=
  (∀ sp ∈ s.highlighted_spans.map Prod.fst, (entitySpans s.annotations).count sp = 1) ∧
  (∀ sp ∈ entitySpans s.annotations, (s.highlighted_spans.map Prod.fst).count sp = 1)

/-- The state `__init__` builds: empty model, no modes, the baseline
snapshot pushed with `initial_state=True`. -/
def initialToolState : ToolState :=
  push_state_to_undo_stack true
    { annotations := { classes := [], relationships := [] }, highlighted_spans := [],
      relationship_mode := false, current_relationship := "",
      relationship_from_class_span := none, relationship_to_class_span := none,
      current_tag := none, selected_context_class_span := none,
      undo_stack := [], redo_stack := [], is_processing_json_change := false,
      status := "Load text or select a tag, then click on a word." }

/-- Two CLASS taggings from the initial state: select the CLASS tag, click
`User` at `[2,6)`, click `Book` at `[20,24)`. -/
def twoActions : ToolState :=
  handle_word_selection "Book" 20 24
    (handle_word_selection "User" 2 6 (set_tag_mode "CLASS" initialToolState))

/-- The round-trip procedure of the claim applied to `twoActions`: undo
twice (the second attempt is already bounded by stack depth) and redo
twice. -/
def roundTripped : ToolState := redo_op (redo_op (undo_op (undo_op twoActions)))

/-- A state with one tagged class, reached from the initial state by
tagging `User` at `[2,6)`. -/
def oneClassState : ToolState :=
  handle_word_selection "User" 2 6 (set_tag_mode "CLASS" initialToolState)

/-- The candidate stream used to exhibit the cancellation behaviour. -/
def c4Candidates : List Candidate :=
  [{ text := "Book", label := "CLASS", start := 0, stop := 4 },
   { text := "title", label := "ATTRIBUTE", start := 10, stop := 15 }]

/-- The pre-annotation run on `oneClassState`, cancelled at the second
iteration (after the snapshot is pushed and one candidate is accepted). -/
def cancelledRun : ToolState := run_preannotation_pipeline c4Candidates 1 oneClassState

/-- A parsed JSON model in which two distinct classes carry the identical
span, as the sync-back path accepts without any span-uniqueness check. -/
def dupSpanModel : AnnModel :=
  { classes := [{ name := "Alpha", span := (0, 4), attributes := [], methods := [] },
                { name := "Beta", span := (0, 4), attributes := [], methods := [] }],
    relationships := [] }

/-- The spec's overlap-policy example: candidates Book/CLASS/[0,4) and
Books/ATTRIBUTE/[0,5). -/
def overlapCandidates : List Candidate :=
  [{ text := "Book", label := "CLASS", start := 0, stop := 4 },
   { text := "Books", label := "ATTRIBUTE", start := 0, stop := 5 }]

/-- The live state produced by syncing back the duplicate-span JSON model. -/
def dupSyncedState : ToolState :=
  handle_json_text_change (ParsedJson.valid dupSpanModel) initialToolState

/-- Span data of a wide tagged class, for the nested-span example. -/
def wideData : SpanData := { text := "outer", tag := "CLASS", class_name := none }

/-- Span data of a narrow tagged class nested inside the wide one. -/
def narrowData : SpanData := { text := "inner", tag := "CLASS", class_name := none }

/-- A span index holding a wide span `[0,5)` and a nested narrower span
`[0,3)`; offset `1` lies inside both. -/
def nestedSpans : List (Span × SpanData) := [((0, 5), wideData), ((0, 3), narrowData)]

/-- A state in relationship mode with a pending from-span on the `User`
class of `twoActions`, awaiting the second click. -/
def relPendingState : ToolState :=
  { twoActions with relationship_mode := true, current_relationship := "association",
                    current_tag := none, relationship_from_class_span := some (2, 6) }

/-- A state whose history has both a deeper undo stack and a redo entry. -/
def historyState : ToolState :=
  { twoActions with redo_stack := [snapshotOf initialToolState] }

/-- The class entry Book at span `[0,4)` with no members. -/
def bookEntry : ClassEntry := { name := "Book", span := (0, 4), attributes := [], methods := [] }

/-- A loop state that has already accepted the span `[0,4)` as class Book. -/
def c8WitnessState : PreState :=
  { annotations := { classes := [bookEntry], relationships := [] },
    hasCurrent := true, newSpans := [(0, 4)] }

/-- The overlapping ATTRIBUTE candidate of the spec's example. -/
def booksCand : Candidate := { text := "Books", label := "ATTRIBUTE", start := 0, stop := 5 }

/-- The self-relationship record a direct `add_relationship` call appends. -/
def selfRelEntry : RelationshipEntry :=
  { from_class := "X", to_class := "X", type := "association",
    from_span := (1, 3), to_span := (1, 3) }

instance (s : ToolState) : Decidable (spanModelAgreement s) := by
  unfold spanModelAgreement
  infer_instance

instance (s : ToolState) : Decidable (noSelfRel s) := by
  unfold noSelfRel
  infer_instance

lemma dictGet_dictInsert_self (m : List (Span × SpanData)) (k : Span) (v : SpanData) :
    dictGet (dictInsert m k v) k = some v := by
  induction m with
  | nil => simp [dictInsert, dictGet]
  | cons p rest ih =>
      by_cases h : p.1 = k
      · simp [dictInsert, h, dictGet]
      · simp [dictInsert, h, dictGet, ih]

lemma pop_annotations_eq (s : ToolState) :
    (pop_state_from_undo_stack s).annotations = s.annotations := by
  unfold pop_state_from_undo_stack
  split_ifs <;> rfl

lemma pop_highlighted_eq (s : ToolState) :
    (pop_state_from_undo_stack s).highlighted_spans = s.highlighted_spans := by
  unfold pop_state_from_undo_stack
  split_ifs <;> rfl

lemma pop_selected_eq (s : ToolState) :
    (pop_state_from_undo_stack s).selected_context_class_span =
      s.selected_context_class_span := by
  unfold pop_state_from_undo_stack
  split_ifs <;> rfl

lemma modelOf_pop (s : ToolState) :
    modelOf (pop_state_from_undo_stack s) = modelOf s := by
  unfold modelOf
  rw [pop_annotations_eq, pop_highlighted_eq]

lemma push_annotations_eq (i : Bool) (s : ToolState) :
    (push_state_to_undo_stack i s).annotations = s.annotations := by
  unfold push_state_to_undo_stack
  split_ifs <;> rfl

lemma entityStatus_annotations_eq (t w : String) (s : ToolState) :
    (entityStatus t w s).annotations = s.annotations := by
  unfold entityStatus
  split
  · rfl
  · split_ifs
    · split <;> rfl
    · rfl

lemma entityStatus_highlighted_eq (t w : String) (s : ToolState) :
    (entityStatus t w s).highlighted_spans = s.highlighted_spans := by
  unfold entityStatus
  split
  · rfl
  · split_ifs
    · split <;> rfl
    · rfl

lemma entityStatus_selected_eq (t w : String) (s : ToolState) :
    (entityStatus t w s).selected_context_class_span = s.selected_context_class_span := by
  unfold entityStatus
  split
  · rfl
  · split_ifs
    · split <;> rfl
    · rfl

/-- C1.  The claim's undo/redo round-trip fails on the code: after the two
mutating actions of `twoActions` (tagging classes User and Book), undoing
twice (only one undo is possible at this stack depth) and redoing twice
leaves a model holding only User — the state holding both classes was
never pushed onto the undo stack, so the round trip cannot reproduce it. -/
theorem C1_undo_redo_roundtrip_fails :
    twoActions.annotations.classes =
      [{ name := "User", span := (2, 6), attributes := [], methods := [] },
       { name := "Book", span := (20, 24), attributes := [], methods := [] }] ∧
    roundTripped.annotations.classes =
      [{ name := "User", span := (2, 6), attributes := [], methods := [] }] ∧
    roundTripped.annotations ≠ twoActions.annotations :=
  ⟨rfl, rfl, by decide⟩

/-- C3.  The baseline snapshot is not indestructible: from the freshly
initialised state (undo stack = the baseline only, redo stack empty), an
idle background word click routes through `pop_state_from_undo_stack`,
whose reversed guard (`len == 1 and not redo_stack`) pops the sole
baseline snapshot, leaving the undo stack empty — a reachable state that
violates the claimed invariant. -/
theorem C3_pop_removes_baseline :
    initialToolState.undo_stack.length = 1 ∧
    (handle_word_selection "The" 0 3 initialToolState).undo_stack = [] :=
  ⟨rfl, rfl⟩

/-- C4.  Cancellation of the pre-annotation run after the snapshot push and
one processed candidate does not roll back: the pushed snapshot is popped
(discarded), yet the live model keeps the partially built candidate list
(class Book) instead of the pre-run model (class User), and the baseline
is all that remains on the undo stack. -/
theorem C4_cancel_commits_partial_model :
    oneClassState.annotations.classes =
      [{ name := "User", span := (2, 6), attributes := [], methods := [] }] ∧
    cancelledRun.annotations.classes =
      [{ name := "Book", span := (0, 4), attributes := [], methods := [] }] ∧
    cancelledRun.status = "Pre-annotation cancelled during entity structuring." ∧
    cancelledRun.undo_stack.length = 1 ∧
    cancelledRun.annotations ≠ oneClassState.annotations :=
  ⟨rfl, rfl, rfl, rfl, by decide⟩

/-- C8.  The pre-annotation structuring policy: a candidate whose span
exactly duplicates or geometrically overlaps an already-accepted span
leaves the loop state unchanged; ATTRIBUTE/METHOD candidates before any
accepted class leave it unchanged; and on the spec's example only the
first-accepted class Book (with no attributes) survives. -/
theorem C8_preannotation_policy :
    (∀ (st : PreState) (c : Candidate),
      ((c.start, c.stop) ∈ st.newSpans ∨
        st.newSpans.any (fun es => Nat.max c.start es.1 < Nat.min c.stop es.2) = true) →
      preannotationStep st c = st) ∧
    (∀ (st : PreState) (c : Candidate), st.hasCurrent = false → c.label ≠ "CLASS" →
      preannotationStep st c = st) ∧
    (structureCandidates overlapCandidates).annotations =
      { classes := [bookEntry], relationships := [] } := by
  refine ⟨?_, ?_, rfl⟩
  · intro st c h
    simp only [preannotationStep]
    by_cases hmem : (c.start, c.stop) ∈ st.newSpans
    · rw [if_pos hmem]
    · rw [if_neg hmem]
      have hov := h.resolve_left hmem
      rw [if_pos hov]
  · intro st c h1 h2
    simp only [preannotationStep]
    by_cases hmem : (c.start, c.stop) ∈ st.newSpans
    · rw [if_pos hmem]
    · rw [if_neg hmem]
      by_cases hov : st.newSpans.any (fun es => Nat.max c.start es.1 < Nat.min c.stop es.2) = true
      · rw [if_pos hov]
      · rw [if_neg hov, if_neg h2]
        have hA : ¬(c.label = "ATTRIBUTE" ∧ st.hasCurrent = true) := by
          rintro ⟨-, hcur⟩
          rw [h1] at hcur
          exact Bool.false_ne_true hcur
        have hM : ¬(c.label = "METHOD" ∧ st.hasCurrent = true) := by
          rintro ⟨-, hcur⟩
          rw [h1] at hcur
          exact Bool.false_ne_true hcur
        rw [if_neg hA, if_neg hM]

/-- Witness for C8: the overlapping Books/ATTRIBUTE candidate is skipped on
the concrete loop state that already accepted Book at span `[0,4)`. -/
theorem C8_preannotation_policy_witness :
    preannotationStep c8WitnessState booksCand = c8WitnessState :=
  C8_preannotation_policy.1 c8WitnessState booksCand (Or.inr (by decide))

/-- C9.  Invalid JSON sync-back is rejected atomically: malformed JSON, a
non-object top level, or a missing `classes`/`relationships` key leaves
the model, the span index and both history stacks untouched, pushes no
snapshot, and surfaces a warning status. -/
theorem C9_invalid_json_rejected :
    ∀ (s : ToolState) (j : ParsedJson), s.is_processing_json_change = false →
      (j = ParsedJson.malformed ∨ j = ParsedJson.nonObject ∨ j = ParsedJson.missingKeys) →
      (handle_json_text_change j s).annotations = s.annotations ∧
      (handle_json_text_change j s).highlighted_spans = s.highlighted_spans ∧
      (handle_json_text_change j s).undo_stack = s.undo_stack ∧
      (handle_json_text_change j s).redo_stack = s.redo_stack ∧
      ((handle_json_text_change j s).status =
          "Warning: Invalid JSON in results. Not synced." ∨
        (handle_json_text_change j s).status =
          "Error: Invalid JSON structure in results panel.") := by
  intro s j hflag hj
  rcases hj with rfl | rfl | rfl <;>
    simp [handle_json_text_change, hflag]

/-- Witness for C9: the malformed-JSON case evaluated on the initial state. -/
theorem C9_invalid_json_rejected_witness :
    (handle_json_text_change ParsedJson.malformed initialToolState).annotations =
        initialToolState.annotations ∧
      (handle_json_text_change ParsedJson.malformed initialToolState).undo_stack =
        initialToolState.undo_stack :=
  ⟨(C9_invalid_json_rejected initialToolState ParsedJson.malformed rfl (Or.inl rfl)).1,
   (C9_invalid_json_rejected initialToolState ParsedJson.malformed rfl (Or.inl rfl)).2.2.1⟩

/-- C10.  Every successful undo or redo restores a snapshot through
`_restore_state`, which leaves the tagging state machine idle: the current
tag is `None`, relationship mode is off and the pending relationship
from-span slot is cleared. -/
theorem C10_restore_resets_tagging :
    ∀ s : ToolState,
      (1 < s.undo_stack.length →
        (undo_op s).current_tag = none ∧ (undo_op s).relationship_mode = false ∧
        (undo_op s).relationship_from_class_span = none) ∧
      (s.redo_stack ≠ [] →
        (redo_op s).current_tag = none ∧ (redo_op s).relationship_mode = false ∧
        (redo_op s).relationship_from_class_span = none) := by
  intro s
  constructor
  · intro hlen
    match hs : s.undo_stack with
    | [] => rw [hs] at hlen; simp at hlen
    | [_] => rw [hs] at hlen; simp at hlen
    | cur :: target :: rest =>
        simp [undo_op, hs, restoreState]
  · intro hredo
    match hs : s.redo_stack with
    | [] => exact absurd hs hredo
    | snap :: rest =>
        simp [redo_op, hs, restoreState]

/-- Witness for C10: undoing and redoing on the concrete `historyState`
(undo depth 2, one redo entry) resets the tagging context. -/
theorem C10_restore_resets_tagging_witness :
    (undo_op historyState).current_tag = none ∧
      (redo_op historyState).relationship_mode = false :=
  ⟨((C10_restore_resets_tagging historyState).1 (by decide)).1,
   ((C10_restore_resets_tagging historyState).2 (by decide)).2.1⟩

lemma mem_insertByLenDesc {z x : Span × SpanData} :
    ∀ {l : List (Span × SpanData)}, z ∈ insertByLenDesc x l ↔ z = x ∨ z ∈ l := by
  intro l
  induction l with
  | nil => simp [insertByLenDesc]
  | cons y ys ih =>
      simp only [insertByLenDesc]
      split_ifs with h
      · simp only [List.mem_cons, ih]
        tauto
      · simp only [List.mem_cons]

lemma mem_foldl_insertByLenDesc {z : Span × SpanData} :
    ∀ (l acc : List (Span × SpanData)),
      z ∈ l.foldl (fun a x => insertByLenDesc x a) acc ↔ z ∈ acc ∨ z ∈ l := by
  intro l
  induction l with
  | nil => intro acc; simp
  | cons y ys ih =>
      intro acc
      simp only [List.foldl_cons]
      rw [ih, mem_insertByLenDesc]
      simp only [List.mem_cons]
      tauto

lemma mem_sortByLenDesc {z : Span × SpanData} (l : List (Span × SpanData)) :
    z ∈ sortByLenDesc l ↔ z ∈ l := by
  unfold sortByLenDesc
  rw [mem_foldl_insertByLenDesc]
  simp

lemma pairwise_insertByLenDesc (x : Span × SpanData) :
    ∀ {l : List (Span × SpanData)},
      l.Pairwise (fun a b => spanLen b.1 ≤ spanLen a.1) →
      (insertByLenDesc x l).Pairwise (fun a b => spanLen b.1 ≤ spanLen a.1) := by
  intro l
  induction l with
  | nil => intro _; simp [insertByLenDesc]
  | cons y ys ih =>
      intro hp
      rw [List.pairwise_cons] at hp
      obtain ⟨hy, hys⟩ := hp
      simp only [insertByLenDesc]
      split_ifs with h
      · rw [List.pairwise_cons]
        refine ⟨?_, ih hys⟩
        intro z hz
        rcases mem_insertByLenDesc.mp hz with rfl | hz
        · exact h
        · exact hy z hz
      · rw [List.pairwise_cons]
        refine ⟨?_, List.pairwise_cons.mpr ⟨hy, hys⟩⟩
        intro z hz
        rcases List.mem_cons.mp hz with rfl | hz
        · exact Nat.le_of_lt (Nat.lt_of_not_le h)
        · exact Nat.le_trans (hy z hz) (Nat.le_of_lt (Nat.lt_of_not_le h))

lemma pairwise_sortByLenDesc (l : List (Span × SpanData)) :
    (sortByLenDesc l).Pairwise (fun a b => spanLen b.1 ≤ spanLen a.1) := by
  unfold sortByLenDesc
  have aux : ∀ (l acc : List (Span × SpanData)),
      acc.Pairwise (fun a b => spanLen b.1 ≤ spanLen a.1) →
      (l.foldl (fun a x => insertByLenDesc x a) acc).Pairwise
        (fun a b => spanLen b.1 ≤ spanLen a.1) := by
    intro l
    induction l with
    | nil => intro acc h; simpa using h
    | cons y ys ih =>
        intro acc h
        simp only [List.foldl_cons]
        exact ih _ (pairwise_insertByLenDesc y h)
  exact aux l [] List.Pairwise.nil

lemma find?_spanLen_max {p : Span × SpanData → Bool} :
    ∀ {l : List (Span × SpanData)} {x : Span × SpanData},
      l.Pairwise (fun a b => spanLen b.1 ≤ spanLen a.1) → l.find? p = some x →
      ∀ y ∈ l, p y = true → spanLen y.1 ≤ spanLen x.1 := by
  intro l
  induction l with
  | nil => intro x _ hf; simp [List.find?] at hf
  | cons a t ih =>
      intro x hp hf y hy hpy
      rw [List.pairwise_cons] at hp
      obtain ⟨ha, ht⟩ := hp
      by_cases hpa : p a = true
      · rw [List.find?_cons_of_pos _ hpa] at hf
        injection hf with hf
        subst hf
        rcases List.mem_cons.mp hy with rfl | hy
        · exact Nat.le_refl _
        · exact ha y hy
      · rw [List.find?_cons_of_neg _ (by simpa using hpa)] at hf
        rcases List.mem_cons.mp hy with rfl | hy
        · exact absurd hpy hpa
        · exact ih ht hf y hy hpy

/-- C2 counterexample.  The claim that the lookup prefers the narrowest
containing span is false: in `nestedSpans` the offset 1 is contained both
in `[0,5)` and in the strictly narrower `[0,3)`, yet
`_get_highlighted_entity_at_pos` returns the wide span `[0,5)` (the sort
uses `reverse=True`, longest first). -/
theorem C2_narrowest_counterexample :
    get_highlighted_entity_at_pos nestedSpans 1 = some ((0, 5), wideData) ∧
    (0 ≤ 1 ∧ 1 < 3) ∧ spanLen (0, 3) < spanLen (0, 5) := by
  decide

/-- C2 amended.  The entity lookup used for context selection and
relationship clicks returns a tagged span containing the offset that is of
maximal length among all containing spans — the widest, not the narrowest
(ties go to the earliest-inserted span, the sort being stable). -/
theorem C2_widest_span_lookup :
    ∀ (spans : List (Span × SpanData)) (pos : Nat) (sp : Span) (d : SpanData),
      get_highlighted_entity_at_pos spans pos = some (sp, d) →
      (sp, d) ∈ spans ∧ sp.1 ≤ pos ∧ pos < sp.2 ∧
      ∀ q ∈ spans, q.1.1 ≤ pos → pos < q.1.2 → spanLen q.1 ≤ spanLen sp := by
  intro spans pos sp d h
  unfold get_highlighted_entity_at_pos at h
  have hmem : (sp, d) ∈ sortByLenDesc spans := List.mem_of_find?_eq_some h
  have hpred := List.find?_some h
  simp only [Bool.and_eq_true, decide_eq_true_eq] at hpred
  refine ⟨(mem_sortByLenDesc spans).mp hmem, hpred.1, hpred.2, ?_⟩
  intro q hq h1 h2
  have hq2 : q ∈ sortByLenDesc spans := (mem_sortByLenDesc spans).mpr hq
  exact find?_spanLen_max (pairwise_sortByLenDesc spans) h q hq2 (by simp [h1, h2])

/-- Witness for C2's amended theorem, instantiated on the nested index. -/
theorem C2_widest_span_lookup_witness :
    ((0, 5), wideData) ∈ nestedSpans ∧ spanLen (0, 3) ≤ spanLen (0, 5) := by
  have h := C2_widest_span_lookup nestedSpans 1 (0, 5) wideData (by decide)
  exact ⟨h.1, h.2.2.2 ((0, 3), narrowData) (by decide) (by decide) (by decide)⟩

lemma noSelfRel_of_rels_eq {s t : ToolState}
    (he : t.annotations.relationships = s.annotations.relationships)
    (h : noSelfRel s) : noSelfRel t := by
  unfold noSelfRel at *
  rw [he]
  exact h

lemma highlight_word_annotations_eq (w : String) (a b : Nat) (t : String)
    (c : Option String) (s : ToolState) :
    (highlight_word w a b t c s).annotations = s.annotations := rfl

lemma contextClick_annotations_eq (s : ToolState) (sp : Span) (d : SpanData) :
    (contextClick s sp d).annotations = s.annotations := by
  unfold contextClick clear_context_class_selection
  split
  · rfl
  · split_ifs <;> rfl

lemma add_entity_relationships_eq (w : String) (a b : Nat) (tg : String) (s : ToolState) :
    (add_entity w a b tg s).annotations.relationships = s.annotations.relationships := by
  simp only [add_entity]
  repeat' split
  all_goals first
    | rfl
    | rw [pop_annotations_eq]
    | (rw [entityStatus_annotations_eq, highlight_word_annotations_eq]; try rfl)
    | (rw [entityStatus_annotations_eq]; try rfl)

lemma add_relationship_noSelfRel {fn tn rt : String} {fs ts : Span} {s : ToolState}
    (hne : fs ≠ ts) (h : noSelfRel s) : noSelfRel (add_relationship fn tn rt fs ts s) := by
  unfold add_relationship
  split_ifs with hdup
  · exact h
  · intro r hr
    rcases List.mem_append.mp hr with hr | hr
    · exact h r hr
    · rcases List.mem_singleton.mp hr with rfl
      exact hne

lemma relationship_click_noSelfRel (w : String) (hit : Option (Span × SpanData))
    {s : ToolState} (h : noSelfRel s) : noSelfRel (relationship_click w hit s) := by
  unfold relationship_click
  rcases hit with _ | ⟨class_span, d⟩
  · exact noSelfRel_of_rels_eq (by rw [pop_annotations_eq]) h
  · simp only []
    split_ifs with htag
    · exact noSelfRel_of_rels_eq (by rw [pop_annotations_eq]) h
    · rcases hfrom : s.relationship_from_class_span with _ | fromSp
      · exact h
      · simp only []
        split_ifs with hsame
        · exact noSelfRel_of_rels_eq (by rw [pop_annotations_eq]) h
        · rcases hfc : getClassBySpan s.annotations (some fromSp) with _ | fromCls <;>
            rcases htc : getClassBySpan s.annotations (some class_span) with _ | toCls <;>
            simp only [hfc, htc]
          · exact noSelfRel_of_rels_eq (by rw [pop_annotations_eq]) h
          · exact noSelfRel_of_rels_eq (by rw [pop_annotations_eq]) h
          · exact noSelfRel_of_rels_eq (by rw [pop_annotations_eq]) h
          · exact add_relationship_noSelfRel (fun he => hsame he.symm) h

lemma handle_word_selection_core_noSelfRel (w : String) (a b : Nat) {s : ToolState}
    (h : noSelfRel s) : noSelfRel (handle_word_selection_core w a b s) := by
  simp only [handle_word_selection_core]
  split_ifs with hctx
  · rcases hhit : get_highlighted_entity_at_pos s.highlighted_spans a with _ | ⟨sp, d⟩
    · exact h
    · exact noSelfRel_of_rels_eq (by rw [contextClick_annotations_eq]) h
  · rcases htag : s.current_tag with _ | tg <;> rcases hmode : s.relationship_mode <;>
      simp only []
    · exact noSelfRel_of_rels_eq (by rw [pop_annotations_eq]) h
    · exact relationship_click_noSelfRel _ _ h
    · split_ifs with habort
      · exact noSelfRel_of_rels_eq (by rw [pop_annotations_eq]) h
      · exact noSelfRel_of_rels_eq (by rw [add_entity_relationships_eq]) h
    · exact relationship_click_noSelfRel _ _ h

/-- C5 counterexample.  `add_relationship` itself performs no
self-relationship check: a direct call with `fromSpan = toSpan` on the
initial (relationship-free) state appends the self-relationship record,
mutating the model. -/
theorem C5_direct_self_append :
    (add_relationship "X" "X" "association" (1, 3) (1, 3)
        initialToolState).annotations.relationships = [selfRelEntry] := rfl

/-- C5 amended.  The self-relationship guard lives in the word-selection
handler, not in `add_relationship`: in relationship mode a second click
resolving to the pending from-span leaves the relationship list untouched
(the speculative snapshot is popped), and a word-selection event can never
introduce a self-relationship — `handle_word_selection` preserves the
absence of self-relationships from any state. -/
theorem C5_self_relationship_guard :
    (∀ (s : ToolState) (sp : Span) (d : SpanData) (w : String),
      s.relationship_from_class_span = some sp →
      (relationship_click w (some (sp, d)) s).annotations.relationships =
        s.annotations.relationships) ∧
    (∀ (s : ToolState) (w : String) (a b : Nat),
      noSelfRel s → noSelfRel (handle_word_selection w a b s)) := by
  constructor
  · intro s sp d w hfrom
    unfold relationship_click
    simp only []
    split_ifs with htag
    · rw [pop_annotations_eq]
    · rw [hfrom]
      simp only [if_true]
      rw [pop_annotations_eq]
  · intro s w a b h
    unfold handle_word_selection
    refine handle_word_selection_core_noSelfRel w a b ?_
    exact noSelfRel_of_rels_eq (by rw [push_annotations_eq]) h

/-- Witness for C5's amended theorem: in the concrete pending-relationship
state, a second click on the same class User leaves the (empty)
relationship list unchanged. -/
theorem C5_self_relationship_guard_witness :
    (relationship_click "User" (some ((2, 6), wideData))
        relPendingState).annotations.relationships =
      relPendingState.annotations.relationships :=
  C5_self_relationship_guard.1 relPendingState (2, 6) wideData "User" rfl

lemma entityStatus_modelOf_eq (t w : String) (s : ToolState) :
    modelOf (entityStatus t w s) = modelOf s := by
  unfold modelOf
  rw [entityStatus_annotations_eq, entityStatus_highlighted_eq]

lemma add_entity_noop_of_match {w : String} {a b : Nat} {tg : String} {s : ToolState}
    {ex : SpanData} (hg : dictGet s.highlighted_spans (a, b) = some ex)
    (ht : ex.tag = tg) (hw : ex.text = w) : add_entity w a b tg s = s := by
  simp only [add_entity, hg]
  rw [if_pos ⟨ht, hw⟩]

lemma add_relationship_noop_of_dup {fn tn rt : String} {fs ts : Span} {s : ToolState}
    (hany : (s.annotations.relationships.any fun r =>
      r.from_span == fs && r.to_span == ts && r.type == rt) = true) :
    add_relationship fn tn rt fs ts s = s := by
  simp only [add_relationship]
  rw [if_pos hany]

/-- C6.  Idempotence of the mutating operations: a repeated `add_entity`
call with identical arguments leaves the live model (annotation model and
span index) exactly as after the first call; a repeated `add_relationship`
call with the same `(fromSpan, toSpan, type)` key is a no-op on the whole
state; and from a state where the span is untagged, two identical
`addClass` calls produce exactly one class at that span. -/
theorem C6_idempotent_mutations :
    (∀ (s : ToolState) (w : String) (a b : Nat) (tg : String),
      modelOf (add_entity w a b tg (add_entity w a b tg s)) =
        modelOf (add_entity w a b tg s)) ∧
    (∀ (s : ToolState) (fn tn rt : String) (fs ts : Span),
      add_relationship fn tn rt fs ts (add_relationship fn tn rt fs ts s) =
        add_relationship fn tn rt fs ts s) ∧
    (∀ (s : ToolState) (w : String) (a b : Nat),
      dictGet s.highlighted_spans (a, b) = none →
      s.annotations.classes.countP (fun c => c.span == (a, b)) = 0 →
      (add_entity w a b "CLASS" (add_entity w a b "CLASS"
          s)).annotations.classes.countP (fun c => c.span == (a, b)) = 1) := by
  refine ⟨?_, ?_, ?_⟩
  · intro s w a b tg
    rcases hg : dictGet s.highlighted_spans (a, b) with _ | ex
    · by_cases hcl : tg = "CLASS"
      · by_cases hdup : (s.annotations.classes.any fun c => c.span == (a, b)) = true
        · have h1 : add_entity w a b tg s = s := by
            simp only [add_entity, hg, if_pos hcl, if_pos hdup]
          rw [h1, h1]
        · have hg2 : dictGet (add_entity w a b tg s).highlighted_spans (a, b) =
              some { text := w, tag := "CLASS", class_name := none } := by
            simp only [add_entity, hg, if_pos hcl, if_neg hdup,
              entityStatus_highlighted_eq, highlight_word]
            exact dictGet_dictInsert_self _ _ _
          rw [add_entity_noop_of_match hg2 hcl.symm rfl]
      · rcases hsel : s.selected_context_class_span with _ | ctx
        · have h1 : add_entity w a b tg s = pop_state_from_undo_stack s := by
            simp only [add_entity, hg, if_neg hcl, hsel]
          have h2 : add_entity w a b tg (pop_state_from_undo_stack s) =
              pop_state_from_undo_stack (pop_state_from_undo_stack s) := by
            simp only [add_entity, pop_highlighted_eq, pop_selected_eq, hg, if_neg hcl, hsel]
          rw [h1, h2, modelOf_pop, modelOf_pop]
        · rcases hpar : getClassBySpan s.annotations (some ctx) with _ | parent
          · have h1 : add_entity w a b tg s = pop_state_from_undo_stack s := by
              simp only [add_entity, hg, if_neg hcl, hsel, hpar]
            have h2 : add_entity w a b tg (pop_state_from_undo_stack s) =
                pop_state_from_undo_stack (pop_state_from_undo_stack s) := by
              simp only [add_entity, pop_highlighted_eq, pop_selected_eq,
                pop_annotations_eq, hg, if_neg hcl, hsel, hpar]
            rw [h1, h2, modelOf_pop, modelOf_pop]
          · by_cases hat : tg = "ATTRIBUTE"
            · by_cases hdup : (parent.attributes.any fun x => x.span == (a, b)) = true
              · have h1 : add_entity w a b tg s = s := by
                  simp only [add_entity, hg, if_neg hcl, hsel, hpar, if_pos hat, if_pos hdup]
                rw [h1, h1]
              · have hg2 : dictGet (add_entity w a b tg s).highlighted_spans (a, b) =
                    some { text := w, tag := "ATTRIBUTE",
                           class_name := ownerRef parent.name "ATTRIBUTE" } := by
                  simp only [add_entity, hg, if_neg hcl, hsel, hpar, if_pos hat,
                    if_neg hdup, entityStatus_highlighted_eq, highlight_word]
                  exact dictGet_dictInsert_self _ _ _
                rw [add_entity_noop_of_match hg2 hat.symm rfl]
            · by_cases hme : tg = "METHOD"
              · by_cases hdup : (parent.methods.any fun x => x.span == (a, b)) = true
                · have h1 : add_entity w a b tg s = s := by
                    simp only [add_entity, hg, if_neg hcl, hsel, hpar, if_neg hat,
                      if_pos hme, if_pos hdup]
                  rw [h1, h1]
                · have hg2 : dictGet (add_entity w a b tg s).highlighted_spans (a, b) =
                      some { text := w, tag := "METHOD",
                             class_name := ownerRef parent.name "METHOD" } := by
                    simp only [add_entity, hg, if_neg hcl, hsel, hpar, if_neg hat,
                      if_pos hme, if_neg hdup, entityStatus_highlighted_eq, highlight_word]
                    exact dictGet_dictInsert_self _ _ _
                  rw [add_entity_noop_of_match hg2 hme.symm rfl]
              · have h1 : add_entity w a b tg s = entityStatus tg w s := by
                  simp only [add_entity, hg, if_neg hcl, hsel, hpar, if_neg hat, if_neg hme]
                have h2 : add_entity w a b tg (entityStatus tg w s) =
                    entityStatus tg w (entityStatus tg w s) := by
                  simp only [add_entity, entityStatus_highlighted_eq,
                    entityStatus_selected_eq, entityStatus_annotations_eq, hg,
                    if_neg hcl, hsel, hpar, if_neg hat, if_neg hme]
                rw [h1, h2, entityStatus_modelOf_eq]
    · by_cases hmatch : ex.tag = tg ∧ ex.text = w
      · have h1 : add_entity w a b tg s = s :=
          add_entity_noop_of_match hg hmatch.1 hmatch.2
        rw [h1, h1]
      · have h1 : add_entity w a b tg s = pop_state_from_undo_stack s := by
          simp only [add_entity, hg]
          rw [if_neg hmatch]
        have h2 : add_entity w a b tg (pop_state_from_undo_stack s) =
            pop_state_from_undo_stack (pop_state_from_undo_stack s) := by
          simp only [add_entity, pop_highlighted_eq, hg]
          rw [if_neg hmatch]
        rw [h1, h2, modelOf_pop, modelOf_pop]
  · intro s fn tn rt fs ts
    by_cases hdup : (s.annotations.relationships.any fun r =>
        r.from_span == fs && r.to_span == ts && r.type == rt) = true
    · have h1 : add_relationship fn tn rt fs ts s = s :=
        add_relationship_noop_of_dup hdup
      rw [h1, h1]
    · have hany : ((add_relationship fn tn rt fs ts s).annotations.relationships.any fun r =>
          r.from_span == fs && r.to_span == ts && r.type == rt) = true := by
        simp only [add_relationship]
        rw [if_neg hdup]
        simp
      exact add_relationship_noop_of_dup hany
  · intro s w a b hg hcount
    have hdupF : ¬(s.annotations.classes.any fun c => c.span == (a, b)) = true := by
      rw [List.any_eq_true]
      rintro ⟨c, hc, hspan⟩
      have := List.countP_eq_zero.mp hcount c hc
      exact this hspan
    have hg2 : dictGet (add_entity w a b "CLASS" s).highlighted_spans (a, b) =
        some { text := w, tag := "CLASS", class_name := none } := by
      simp only [add_entity, hg, eq_self_iff_true, if_true, if_neg hdupF,
        entityStatus_highlighted_eq, highlight_word]
      exact dictGet_dictInsert_self _ _ _
    rw [add_entity_noop_of_match hg2 rfl rfl]
    have hcls : (add_entity w a b "CLASS" s).annotations.classes =
        s.annotations.classes ++
          [{ name := w, span := (a, b), attributes := [], methods := [] }] := by
      simp only [add_entity, hg, eq_self_iff_true, if_true, if_neg hdupF,
        entityStatus_annotations_eq, highlight_word_annotations_eq]
    rw [hcls, List.countP_append, hcount]
    simp [List.countP_cons]

/-- Witness for C6: two identical addClass calls on the initial state
produce exactly one User class at span `[2,6)`. -/
theorem C6_idempotent_mutations_witness :
    (add_entity "User" 2 6 "CLASS" (add_entity "User" 2 6 "CLASS"
        initialToolState)).annotations.classes.countP (fun c => c.span == (2, 6)) = 1 :=
  C6_idempotent_mutations.2.2 initialToolState "User" 2 6 rfl rfl

lemma dictInsert_fresh {m : List (Span × SpanData)} {k : Span} (v : SpanData)
    (hk : k ∉ m.map Prod.fst) : dictInsert m k v = m ++ [(k, v)] := by
  induction m with
  | nil => rfl
  | cons p rest ih =>
      simp only [List.map_cons, List.mem_cons] at hk
      push_neg at hk
      obtain ⟨h1, h2⟩ := hk
      simp only [dictInsert]
      rw [if_neg (fun he => h1 he.symm), ih h2]
      rfl

lemma foldl_dictInsert_keys :
    ∀ (I m : List (Span × SpanData)),
      (m.map Prod.fst ++ I.map Prod.fst).Nodup →
      (I.foldl (fun acc p => dictInsert acc p.1 p.2) m).map Prod.fst =
        m.map Prod.fst ++ I.map Prod.fst := by
  intro I
  induction I with
  | nil => intro m h; simp
  | cons q I ih =>
      intro m h
      simp only [List.map_cons] at h
      have hk : q.1 ∉ m.map Prod.fst := by
        intro hmem
        exact (List.nodup_append.mp h).2.2 hmem (List.mem_cons_self _ _)
      simp only [List.foldl_cons]
      rw [dictInsert_fresh q.2 hk]
      have h2 : ((m ++ [(q.1, q.2)]).map Prod.fst ++ I.map Prod.fst).Nodup := by
        rw [List.map_append, List.append_assoc]
        simpa using h
      rw [ih _ h2]
      simp [List.map_append, List.append_assoc]

lemma rebuild_highlighted_spans_eq (s : ToolState) :
    (rebuild_highlights_from_annotations s).highlighted_spans =
      (highlightInsertions s.annotations).foldl
        (fun m p => dictInsert m p.1 p.2) [] := by
  simp only [rebuild_highlights_from_annotations]
  split
  · rfl
  · split_ifs <;> rfl

lemma rebuild_annotations_eq (s : ToolState) :
    (rebuild_highlights_from_annotations s).annotations = s.annotations := by
  simp only [rebuild_highlights_from_annotations]
  split
  · rfl
  · split_ifs <;> rfl

lemma agreement_congr {s t : ToolState} (h1 : t.annotations = s.annotations)
    (h2 : t.highlighted_spans = s.highlighted_spans) (h : spanModelAgreement s) :
    spanModelAgreement t := by
  unfold spanModelAgreement at *
  rw [h1, h2]
  exact h

lemma spanCount_eq_one {l : List Span} {a : Span} (d : l.Nodup) (h : a ∈ l) :
    l.count a = 1 := by
  induction l with
  | nil => simp at h
  | cons b t ih =>
      rcases List.mem_cons.mp h with rfl | hmem
      · have hnotin : a ∉ t := (List.nodup_cons.mp d).1
        simp [List.count_cons, List.count_eq_zero.mpr hnotin]
      · have hne : a ≠ b := by
          rintro rfl
          exact (List.nodup_cons.mp d).1 hmem
        simp [List.count_cons, hne, ih (List.nodup_cons.mp d).2 hmem]

lemma agreement_rebuild (s : ToolState) (h : (entitySpans s.annotations).Nodup) :
    spanModelAgreement (rebuild_highlights_from_annotations s) := by
  have hkeys : (rebuild_highlights_from_annotations s).highlighted_spans.map Prod.fst =
      entitySpans s.annotations := by
    rw [rebuild_highlighted_spans_eq]
    have hmain := foldl_dictInsert_keys (highlightInsertions s.annotations) []
      (by simpa [entitySpans] using h)
    simpa [entitySpans] using hmain
  have hann := rebuild_annotations_eq s
  constructor
  · intro sp hsp
    rw [hann]
    rw [hkeys] at hsp
    exact spanCount_eq_one h hsp
  · intro sp hsp
    rw [hann] at hsp
    rw [hkeys]
    exact spanCount_eq_one h hsp

lemma agreement_restoreState (snap : Snapshot) (s : ToolState)
    (h : (entitySpans snap.annotations).Nodup) :
    spanModelAgreement (restoreState snap s) := by
  unfold restoreState
  exact agreement_congr rfl rfl (agreement_rebuild _ h)

/-- C7 counterexample.  The agreement claim fails after a public operation:
syncing back the JSON model in which the two classes Alpha and Beta carry
the identical span `[0,4)` (the sync path validates no span uniqueness)
leaves one index entry naming two model entities. -/
theorem C7_agreement_counterexample :
    ¬ spanModelAgreement dupSyncedState ∧
    dupSyncedState.highlighted_spans.length = 1 ∧
    dupSyncedState.annotations.classes.length = 2 :=
  ⟨by decide, rfl, rfl⟩

/-- C7 amended.  Span Index / Model agreement holds after every operation
that rebuilds the index from the model — undo, redo and a valid JSON
sync-back — provided the model's entity spans are pairwise distinct (which
interactive tagging guarantees but JSON sync-back does not check): every
index key then names exactly one entity and every entity span occurs
exactly once among the index keys. -/
theorem C7_spanindex_agreement :
    (∀ s : ToolState, (entitySpans s.annotations).Nodup →
      spanModelAgreement (rebuild_highlights_from_annotations s)) ∧
    (∀ (s : ToolState) (cur tgt : Snapshot) (rest : List Snapshot),
      s.undo_stack = cur :: tgt :: rest → (entitySpans tgt.annotations).Nodup →
      spanModelAgreement (undo_op s)) ∧
    (∀ (s : ToolState) (snap : Snapshot) (rest : List Snapshot),
      s.redo_stack = snap :: rest → (entitySpans snap.annotations).Nodup →
      spanModelAgreement (redo_op s)) ∧
    (∀ (s : ToolState) (a : AnnModel), s.is_processing_json_change = false →
      (entitySpans a).Nodup →
      spanModelAgreement (handle_json_text_change (ParsedJson.valid a) s)) := by
  refine ⟨agreement_rebuild, ?_, ?_, ?_⟩
  · intro s cur tgt rest hs h
    simp only [undo_op, hs]
    exact agreement_congr rfl rfl (agreement_restoreState tgt _ h)
  · intro s snap rest hs h
    simp only [redo_op, hs]
    exact agreement_congr rfl rfl (agreement_restoreState snap _ h)
  · intro s a hflag h
    simp only [handle_json_text_change, hflag]
    exact agreement_congr rfl rfl (agreement_rebuild _ h)

/-- Witness for C7's amended theorem: rebuilding the index of the concrete
one-class state yields exact agreement. -/
theorem C7_spanindex_agreement_witness :
    spanModelAgreement (rebuild_highlights_from_annotations oneClassState) :=
  C7_spanindex_agreement.1 oneClassState (by decide)

end Annotate
